import Mathlib

/-!
Verification of the python-ivi instrument session and I/O layer
(file src/ivi/ivi.py).

Bytes objects are modelled as `List Nat` (one entry per byte), strings as
Lean `String`.  Python functions that can raise are modelled as `Except`
values or, for the IEEE block decoder whose marker scan can also loop
forever, as a dedicated result type with an explicit divergence marker.
-/

set_option autoImplicit false

namespace PyIvi

/-! ## IEEE 488.2 binary block codec

Embeds `build_ieee_block` (ivi.py lines 294-300) and `decode_ieee_block`
(lines 303-327).
-/

/-- Decimal digit characters of `n`, most significant first, as ASCII byte
values (the digit `d` is the byte `d + 48`).  `Nat.digits 10 n` is the
little-endian digit list, so we reverse it.  For `n = 0` this is `[]`,
matching the fact that `%d`-style padding below supplies the zeros. -/
def digitsBE (n : Nat) : List Nat :=
  ((Nat.digits 10 n).reverse).map (fun d => d + 48)

/-- The ASCII bytes produced by Python `'%08d' % n` for `n ≥ 0`: the decimal
digits of `n`, left-padded with `'0'` (byte 48) to a minimum width of 8.
Numbers with more than 8 digits are printed in full (no truncation). -/
def padZero8 (n : Nat) : List Nat :=
  List.replicate (8 - (digitsBE n).length) 48 ++ digitsBE n

/-- `build_ieee_block(data)` = `str('#8%08d' % len(data)).encode('utf-8') + data`.
`'#'` is byte 35 and `'8'` is byte 56. -/
def build_ieee_block (data : List Nat) : List Nat :=
  35 :: 56 :: (padZero8 data.length ++ data)

/-- Result of running `decode_ieee_block`: a returned payload, an uncaught
exception (`ValueError` from `int(...)` on a non-digit or empty slice), or
divergence of the `while data[ind:ind+1] != c` marker scan. -/
inductive DecodeResult where
  | ok (payload : List Nat)
  | error
  | diverge
deriving DecidableEq, Repr

/-- The marker scan of `decode_ieee_block`: starting from the head, drop
bytes until the first `'#'` (byte 35) and return the bytes after it.
`none` models the case in which the Python loop increments `ind` forever
(no `'#'` present: `data[ind:ind+1]` is `b''` for every out-of-range `ind`,
which never equals `b'#'`). -/
def scanHash : List Nat → Option (List Nat)
  | [] => none
  | b :: rest => if b = 35 then some rest else scanHash rest

/-- ASCII decimal digit test: byte values 48..57. -/
def isDigitByte (b : Nat) : Bool := 48 ≤ b && b ≤ 57

/-- Numeric value of a big-endian list of ASCII digit bytes. -/
def digitsVal (ds : List Nat) : Nat :=
  ds.foldl (fun a d => a * 10 + (d - 48)) 0

/-- `int(bytes.decode('utf-8'))` on a slice of digit bytes: defined (and
equal to the denoted number) when the slice is nonempty and all bytes are
ASCII digits, undefined (`ValueError`) otherwise.  (Python `int` also
accepts signs, surrounding whitespace and underscores; those forms never
occur in the framed data handled here and are modelled as failures.) -/
def parseDecimal (ds : List Nat) : Option Nat :=
  if ds.isEmpty then none
  else if ds.all isDigitByte then some (digitsVal ds) else none

/-- `decode_ieee_block(data)` (ivi.py lines 303-327).  Empty input returns
`b''`.  Otherwise scan to the first `'#'` (diverging if there is none),
read one byte as the digit-count `l` (`ValueError` if missing or not a
digit), and for `l > 0` read the next `l` bytes as the decimal payload
length `num` and return the next `num` bytes (`data[ind:ind+num]`, a
truncating slice); for `l = 0` return everything after the digit. -/
def decode_ieee_block (data : List Nat) : DecodeResult :=
  if data.isEmpty then .ok []
  else
    match scanHash data with
    | none => .diverge
    | some t =>
      match t with
      | [] => .error
      | d :: t2 =>
        if isDigitByte d then
          let l := d - 48
          if 0 < l then
            match parseDecimal (t2.take l) with
            | some num => .ok ((t2.drop l).take num)
            | none => .error
          else .ok t2
        else .error

/-- Fuel-indexed model of the raw marker-scan loop
`while data[ind:ind+1] != c: ind += 1` of `decode_ieee_block`: `some i`
means the loop exits with `ind = i` within the given number of iterations,
`none` that it has not exited yet.  The loop body performs no I/O and can
raise nothing, so `(∀ fuel, scanLoop data 0 fuel = none)` says the loop
never terminates. -/
def scanLoop (data : List Nat) : Nat → Nat → Option Nat
  | _, 0 => none
  | ind, fuel + 1 =>
    if (data.drop ind).take 1 = [35] then some ind
    else scanLoop data (ind + 1) fuel

end PyIvi

namespace PyIvi

/-! ### Codec lemmas -/

theorem scanHash_eq_none_iff (l : List Nat) : scanHash l = none ↔ 35 ∉ l := by
  induction l with
  | nil => simp [scanHash]
  | cons b rest ih =>
    by_cases hb : b = 35
    · subst hb; simp [scanHash]
    · simp [scanHash, hb, ih, Ne.symm hb]

theorem scanHash_append {pre : List Nat} (t : List Nat) (h : 35 ∉ pre) :
    scanHash (pre ++ 35 :: t) = some t := by
  induction pre with
  | nil => simp [scanHash]
  | cons b rest ih =>
    have hb : b ≠ 35 := fun hb => h (hb ▸ List.mem_cons_self b rest)
    have hr : 35 ∉ rest := fun hr => h (List.mem_cons_of_mem b hr)
    simp [scanHash, hb, ih hr]

theorem foldl_mul_add (L : List Nat) (a : Nat) :
    L.foldl (fun x d => x * 10 + d) a = a * 10 ^ L.length + Nat.ofDigits 10 L.reverse := by
  induction L generalizing a with
  | nil => simp [Nat.ofDigits]
  | cons d L ih =>
    rw [List.foldl_cons, ih (a * 10 + d), List.reverse_cons, Nat.ofDigits_append]
    simp [Nat.ofDigits_singleton, List.length_cons, pow_succ]
    ring

theorem foldl_sub48 (ds : List Nat) (a : Nat) :
    ds.foldl (fun x d => x * 10 + (d - 48)) a
      = (ds.map (fun d => d - 48)).foldl (fun x d => x * 10 + d) a := by
  induction ds generalizing a with
  | nil => rfl
  | cons d ds ih => simp [ih]

theorem digitsVal_digitsBE (n : Nat) : digitsVal (digitsBE n) = n := by
  unfold digitsVal digitsBE
  rw [foldl_sub48, List.map_map]
  have : ((fun d => d - 48) ∘ fun d => d + 48) = (id : Nat → Nat) := by
    funext d; simp [id]
  rw [this, List.map_id, foldl_mul_add]
  simp [Nat.ofDigits_digits]

theorem digitsVal_pad (k : Nat) (L : List Nat) :
    digitsVal (List.replicate k 48 ++ L) = digitsVal L := by
  unfold digitsVal
  rw [List.foldl_append]
  have : List.foldl (fun a d => a * 10 + (d - 48)) 0 (List.replicate k 48) = 0 := by
    induction k with
    | zero => rfl
    | succ k ih => simpa [List.replicate_succ] using ih
  rw [this]

theorem digitsVal_padZero8 (n : Nat) : digitsVal (padZero8 n) = n := by
  unfold padZero8; rw [digitsVal_pad, digitsVal_digitsBE]

theorem padZero8_all_digits (n : Nat) : (padZero8 n).all isDigitByte = true := by
  rw [List.all_eq_true]
  intro x hx
  rcases List.mem_append.mp hx with hx | hx
  · rw [List.eq_of_mem_replicate hx]; decide
  · rcases List.mem_map.mp hx with ⟨d, hd, rfl⟩
    have : d < 10 := Nat.digits_lt_base (by norm_num) (List.mem_reverse.mp hd)
    simp [isDigitByte]; omega

theorem padZero8_length (n : Nat) : (padZero8 n).length = max 8 (Nat.digits 10 n).length := by
  simp [padZero8, digitsBE]
  omega

theorem padZero8_ne_empty (n : Nat) : (padZero8 n).isEmpty = false := by
  have h := padZero8_length n
  rcases hE : padZero8 n with _ | ⟨b, l⟩
  · rw [hE] at h; simp at h; omega
  · rfl

theorem parseDecimal_padZero8 (n : Nat) : parseDecimal (padZero8 n) = some n := by
  unfold parseDecimal
  rw [padZero8_ne_empty, padZero8_all_digits]
  simp [digitsVal_padZero8]

theorem digits_length_le_of_lt {n : Nat} (h : n < 10 ^ 8) :
    (Nat.digits 10 n).length ≤ 8 := by
  rcases Nat.eq_zero_or_pos n with h0 | h0
  · subst h0; simp
  · rw [Nat.digits_len 10 n (by norm_num) (by omega)]
    have := Nat.log_lt_of_lt_pow (by omega : n ≠ 0) h
    omega

theorem padZero8_length_of_lt {n : Nat} (h : n < 10 ^ 8) : (padZero8 n).length = 8 := by
  rw [padZero8_length]
  have := digits_length_le_of_lt h
  omega

theorem ofDigits_lt_pow (L : List Nat) (h : ∀ d ∈ L, d < 10) :
    Nat.ofDigits 10 L < 10 ^ L.length := by
  induction L with
  | nil => simp [Nat.ofDigits]
  | cons d L ih =>
    have hd : d < 10 := h d (List.mem_cons_self _ _)
    have hL : Nat.ofDigits 10 L < 10 ^ L.length :=
      ih (fun x hx => h x (List.mem_cons_of_mem _ hx))
    have hp : (10:ℕ) ^ (d :: L).length = 10 * 10 ^ L.length := by
      rw [List.length_cons, pow_succ]; ring
    rw [Nat.ofDigits_cons, hp]
    omega

theorem digitsVal_lt (ds : List Nat) (h : ds.all isDigitByte = true) :
    digitsVal ds < 10 ^ ds.length := by
  unfold digitsVal
  rw [foldl_sub48, foldl_mul_add]
  have hd : ∀ d ∈ (ds.map (fun d => d - 48)).reverse, d < 10 := by
    intro d hdm
    rcases List.mem_map.mp (List.mem_reverse.mp hdm) with ⟨x, hx, rfl⟩
    have hx2 := List.all_eq_true.mp h x hx
    simp [isDigitByte] at hx2
    omega
  have hlt := ofDigits_lt_pow _ hd
  have hlen : ((ds.map (fun d => d - 48)).reverse).length = ds.length := by simp
  rw [hlen] at hlt
  omega

/-- Evaluation of the decoder on an encoder output, for a payload of any
length: the header is at the very front, the digit-count byte is always
the literal digit 8, and the decoder takes the first 8 bytes of the length
field (which holds all of the digits exactly when the payload length fits
in 8 digits). -/
theorem decode_build (p : List Nat) :
    decode_ieee_block (build_ieee_block p)
      = DecodeResult.ok (((padZero8 p.length).drop 8 ++ p).take
          (digitsVal ((padZero8 p.length).take 8))) := by
  have h8 : 8 ≤ (padZero8 p.length).length := by rw [padZero8_length]; omega
  have htake : (padZero8 p.length ++ p).take 8 = (padZero8 p.length).take 8 :=
    List.take_append_of_le_length h8
  have hdrop : (padZero8 p.length ++ p).drop 8 = (padZero8 p.length).drop 8 ++ p :=
    List.drop_append_of_le_length h8
  have hall : ((padZero8 p.length).take 8).all isDigitByte = true := by
    rw [List.all_eq_true]
    intro x hx
    exact List.all_eq_true.mp (padZero8_all_digits _) x (List.mem_of_mem_take hx)
  have hne : ((padZero8 p.length).take 8).isEmpty = false := by
    have hlen : ((padZero8 p.length).take 8).length = 8 := by
      rw [List.length_take]; omega
    rcases hE : (padZero8 p.length).take 8 with _ | _
    · rw [hE] at hlen; simp at hlen
    · rfl
  have hparse : parseDecimal ((padZero8 p.length ++ p).take 8)
      = some (digitsVal ((padZero8 p.length).take 8)) := by
    rw [htake]; unfold parseDecimal; rw [hne, hall]; simp
  have hempty : (build_ieee_block p).isEmpty = false := rfl
  have hscan : scanHash (build_ieee_block p)
      = some (56 :: (padZero8 p.length ++ p)) := by
    simp [build_ieee_block, scanHash]
  unfold decode_ieee_block
  rw [hempty, hscan]
  have h56 : isDigitByte 56 = true := rfl
  simp only [Bool.false_eq_true, if_false, h56, if_true]
  norm_num
  rw [hparse, hdrop]

end PyIvi

namespace PyIvi

/-- C1 (amended): decoding the encoding returns the payload exactly, for
every payload of length less than 10^8 bytes (so that the length field is
exactly the 8 digits the decoder reads back). -/
theorem claim_C1 (p : List Nat) (h : p.length < 10 ^ 8) :
    decode_ieee_block (build_ieee_block p) = DecodeResult.ok p := by
  have hpadlen : (padZero8 p.length).length = 8 := padZero8_length_of_lt h
  rw [decode_build]
  rw [show (padZero8 p.length).take 8 = padZero8 p.length from by
        rw [← hpadlen, List.take_length]]
  rw [show (padZero8 p.length).drop 8 = [] from by
        rw [← hpadlen, List.drop_length]]
  rw [digitsVal_padZero8, List.nil_append, List.take_length]

/-- Witness for C1: round trip at the concrete payload `b"AB"`. -/
theorem claim_C1_witness :
    ([65, 66] : List Nat).length < 10 ^ 8 ∧
    decode_ieee_block (build_ieee_block [65, 66]) = DecodeResult.ok [65, 66] :=
  ⟨by norm_num, claim_C1 [65, 66] (by norm_num)⟩

/-- For a payload of exactly 10^8 bytes the round trip loses data: the
length field has nine digits, the decoder takes only the first eight of
them as the length, and the decoded slice is shorter than the payload.
Stated symbolically so that the concrete counterexample below is a pure
instantiation (the concrete list never has to be evaluated). -/
theorem decode_build_ne_of_pow_length (p : List Nat) (hp : p.length = 10 ^ 8) :
    decode_ieee_block (build_ieee_block p) ≠ DecodeResult.ok p := by
  intro hEq
  have hdlen : (Nat.digits 10 p.length).length = 9 := by
    have h1 := Nat.digits_len 10 p.length (by norm_num)
      (by rw [hp]; positivity)
    have h2 : Nat.log 10 p.length = 8 := by
      rw [hp]; exact Nat.log_pow (by norm_num) 8
    omega
  have hpadlen : (padZero8 p.length).length = 9 := by
    have h1 := padZero8_length p.length
    omega
  have hall : ((padZero8 p.length).take 8).all isDigitByte = true := by
    rw [List.all_eq_true]
    intro x hx
    exact List.all_eq_true.mp (padZero8_all_digits _) x (List.mem_of_mem_take hx)
  have hb := digitsVal_lt _ hall
  have htlen := List.length_take 8 (padZero8 p.length)
  have htlen8 : ((padZero8 p.length).take 8).length = 8 := by omega
  have hvlt : digitsVal ((padZero8 p.length).take 8) < 10 ^ 8 :=
    Nat.lt_of_lt_of_le hb (Nat.pow_le_pow_right (by norm_num) (Nat.le_of_eq htlen8))
  have hdb := decode_build p
  have hlists := DecodeResult.ok.inj (hdb.symm.trans hEq)
  have hL := congrArg List.length hlists
  have e1 := List.length_take (digitsVal ((padZero8 p.length).take 8))
    ((padZero8 p.length).drop 8 ++ p)
  have e2 := List.length_append ((padZero8 p.length).drop 8) p
  have e3 := List.length_drop 8 (padZero8 p.length)
  omega

/-- Counterexample for C1 as frozen ("payloads of any length"): the round
trip fails at the concrete payload of 10^8 zero bytes. -/
theorem claim_C1_counterexample :
    decode_ieee_block (build_ieee_block (List.replicate (10 ^ 8) 0)) ≠
      DecodeResult.ok (List.replicate (10 ^ 8) 0) :=
  decode_build_ne_of_pow_length (List.replicate (10 ^ 8) 0)
    (List.length_replicate _ _)

/-- C2 (amended): for every payload of length less than 10^8, the encoder
output is the byte 35 (`'#'`), the byte 56 (`'8'`), exactly 8 ASCII decimal
digit bytes carrying `len(p)` zero-padded, then the payload itself.  (For
payloads of 10^8 bytes or more, `'%08d'` is only a minimum width and the
length field is longer than 8 digits.) -/
theorem claim_C2 (p : List Nat) (h : p.length < 10 ^ 8) :
    build_ieee_block p = 35 :: 56 :: (padZero8 p.length ++ p) ∧
    (padZero8 p.length).length = 8 ∧
    (padZero8 p.length).all isDigitByte = true ∧
    parseDecimal (padZero8 p.length) = some p.length :=
  ⟨rfl, padZero8_length_of_lt h, padZero8_all_digits _, parseDecimal_padZero8 _⟩

/-- The spec's concrete example: encoding `b"AB"` yields
`b"#800000002AB"`. -/
theorem build_ieee_block_AB :
    build_ieee_block [65, 66] = [35, 56, 48, 48, 48, 48, 48, 48, 48, 50, 65, 66] := by
  have h2 : Nat.digits 10 2 = [2] := by
    rw [Nat.digits_def' (by norm_num : (1 : ℕ) < 10) (by norm_num : (0 : ℕ) < 2)]
    norm_num
  simp [build_ieee_block, padZero8, digitsBE, h2]

/-- Witness for C2 at the payload `b"AB"` of the spec's example. -/
theorem claim_C2_witness :
    ([65, 66] : List Nat).length < 10 ^ 8 ∧
    (build_ieee_block [65, 66] = 35 :: 56 :: (padZero8 ([65, 66] : List Nat).length ++ [65, 66]) ∧
     (padZero8 ([65, 66] : List Nat).length).length = 8 ∧
     (padZero8 ([65, 66] : List Nat).length).all isDigitByte = true ∧
     parseDecimal (padZero8 ([65, 66] : List Nat).length) = some ([65, 66] : List Nat).length) :=
  ⟨by norm_num, claim_C2 [65, 66] (by norm_num)⟩

/-- For a payload of exactly 10^8 bytes the emitted block is 11 + 10^8
bytes long: the `'%08d'` width is only a minimum and the length field
spills over to nine digits.  Stated symbolically so that the concrete
counterexample below is a pure instantiation. -/
theorem build_length_of_pow_length (p : List Nat) (hp : p.length = 10 ^ 8) :
    (build_ieee_block p).length = 11 + 10 ^ 8 := by
  have hdlen : (Nat.digits 10 p.length).length = 9 := by
    have h1 := Nat.digits_len 10 p.length (by norm_num)
      (by rw [hp]; positivity)
    have h2 : Nat.log 10 p.length = 8 := by
      rw [hp]; exact Nat.log_pow (by norm_num) 8
    omega
  have hpad := padZero8_length p.length
  have e0 : (build_ieee_block p).length
      = (padZero8 p.length ++ p).length + 1 + 1 := rfl
  have e1 := List.length_append (padZero8 p.length) p
  omega

/-- Counterexample for C2 as frozen ("regardless of the payload size"):
at 10^8 payload bytes the emitted block is 11 + 10^8 bytes long, not the
10 + 10^8 that a fixed 2-byte marker plus an exactly-8-digit header
implies. -/
theorem claim_C2_counterexample :
    (build_ieee_block (List.replicate (10 ^ 8) 0)).length ≠ 10 + 10 ^ 8 := by
  intro h
  have hb := build_length_of_pow_length (List.replicate (10 ^ 8) 0)
    (List.length_replicate _ _)
  omega

end PyIvi

namespace PyIvi

/-- C3: `decode_ieee_block` returns empty bytes on empty input; on input
with a `'#'` byte it skips everything before the first `'#'`, reads the
single digit `l` after it, and: for `l = 0` (digit byte 48) returns all
bytes after the digit; for `l > 0` it parses the next `l` bytes as a
decimal length `num` and returns the next `num` bytes as a truncating
slice (`take num`), which silently returns fewer bytes when fewer remain. -/
theorem claim_C3 (pre rest : List Nat) (d : Nat) (hpre : 35 ∉ pre)
    (hd : isDigitByte d = true) :
    decode_ieee_block [] = DecodeResult.ok [] ∧
    (d = 48 → decode_ieee_block (pre ++ 35 :: d :: rest) = DecodeResult.ok rest) ∧
    (48 < d → ∀ num : Nat, parseDecimal (rest.take (d - 48)) = some num →
      decode_ieee_block (pre ++ 35 :: d :: rest)
        = DecodeResult.ok ((rest.drop (d - 48)).take num)) := by
  have hne : (pre ++ 35 :: d :: rest).isEmpty = false := by
    rcases pre with _ | ⟨a, t⟩ <;> rfl
  have hscan : scanHash (pre ++ 35 :: d :: rest) = some (d :: rest) :=
    scanHash_append (d :: rest) hpre
  refine ⟨rfl, ?_, ?_⟩
  · intro h48
    unfold decode_ieee_block
    rw [hne, hscan]
    subst h48
    simp [hd]
  · intro hlt num hparse
    unfold decode_ieee_block
    rw [hne, hscan]
    have hl : 0 < d - 48 := by omega
    simp only [Bool.false_eq_true, if_false, hd, if_true, if_pos hl, hparse]

/-- Witness for C3: leading noise byte 65, digit-count 1, one-byte length
field `'5'` (byte 53), and six remaining bytes of which the first five are
returned. -/
theorem claim_C3_witness :
    ((35 : Nat) ∉ ([65] : List Nat)) ∧ isDigitByte 49 = true ∧ (48 : Nat) < 49 ∧
    parseDecimal (([53, 65, 66, 67, 68, 69, 70] : List Nat).take (49 - 48)) = some 5 ∧
    decode_ieee_block ([65] ++ 35 :: 49 :: [53, 65, 66, 67, 68, 69, 70])
      = DecodeResult.ok ((([53, 65, 66, 67, 68, 69, 70] : List Nat).drop (49 - 48)).take 5) :=
  ⟨by decide, by decide, by decide, by decide,
   (claim_C3 [65] [53, 65, 66, 67, 68, 69, 70] 49 (by decide) (by decide)).2.2
     (by decide) 5 (by decide)⟩

/-- The marker-scan loop can never exit when the buffer holds no `'#'`
byte: every slice `data[ind:ind+1]` differs from `b'#'`, so the loop
condition never becomes false, whatever the iteration count. -/
theorem scanLoop_of_not_mem (data : List Nat) (h : 35 ∉ data) :
    ∀ (fuel ind : Nat), scanLoop data ind fuel = none := by
  intro fuel
  induction fuel with
  | zero => intro ind; rfl
  | succ fuel ih =>
    intro ind
    unfold scanLoop
    rw [if_neg]
    · exact ih (ind + 1)
    · intro hc
      have h1 : 35 ∈ (data.drop ind).take 1 := by
        rw [hc]; exact List.mem_cons_self _ _
      exact h (List.mem_of_mem_drop (List.mem_of_mem_take h1))

/-- When a `'#'` byte occurs in the part of the buffer not yet scanned,
the marker-scan loop exits within as many further iterations as there are
buffer positions left. -/
theorem scanLoop_finds (data : List Nat) :
    ∀ (fuel ind : Nat), 35 ∈ data.drop ind → data.length ≤ ind + fuel →
      scanLoop data ind fuel ≠ none := by
  intro fuel
  induction fuel with
  | zero =>
    intro ind hmem hlen
    rw [List.drop_eq_nil_of_le (by omega)] at hmem
    cases hmem
  | succ fuel ih =>
    intro ind hmem hlen
    unfold scanLoop
    by_cases hc : (data.drop ind).take 1 = [35]
    · rw [if_pos hc]; simp
    · rw [if_neg hc]
      apply ih (ind + 1) ?_ (by omega)
      rcases hD : data.drop ind with _ | ⟨x, xs⟩
      · rw [hD] at hmem; cases hmem
      · have hx : x ≠ 35 := by
          intro hx35
          apply hc
          rw [hD, hx35]
          rfl
        have hdr : data.drop (ind + 1) = xs := by
          have h1 : data.drop (ind + 1) = (data.drop ind).drop 1 := by
            rw [List.drop_drop]
          rw [h1, hD]
          rfl
        rw [hdr]
        rw [hD] at hmem
        rcases List.mem_cons.mp hmem with h35x | hmem2
        · exact absurd h35x.symm hx
        · exact hmem2

/-- `decode_ieee_block` reaches the diverging marker scan exactly on the
nonempty inputs with no `'#'` byte. -/
theorem decode_diverge_iff (data : List Nat) :
    decode_ieee_block data = DecodeResult.diverge ↔ (data ≠ [] ∧ 35 ∉ data) := by
  rcases data with _ | ⟨b, t⟩
  · simp [decode_ieee_block]
  · unfold decode_ieee_block
    rcases hS : scanHash (b :: t) with _ | t2
    · have h35 : 35 ∉ b :: t := (scanHash_eq_none_iff _).mp hS
      simp [h35]
    · have h35 : 35 ∈ b :: t := by
        by_contra hcon
        rw [← scanHash_eq_none_iff] at hcon
        rw [hcon] at hS
        cases hS
      simp only [List.isEmpty_cons, Bool.false_eq_true, if_false]
      constructor
      · intro hdd
        exfalso
        revert hdd
        rcases t2 with _ | ⟨d, t3⟩
        · intro hdd; cases hdd
        · dsimp only
          split
          · split
            · split <;> (intro hdd; cases hdd)
            · intro hdd; cases hdd
          · intro hdd; cases hdd
      · rintro ⟨_, h35c⟩
        exact absurd h35 h35c

/-- C9: the decoder terminates (returning or raising) precisely on the
inputs that are empty or contain a `'#'` byte; on nonempty `'#'`-free
input the marker scan runs forever, never exiting within any number of
iterations, while a buffer containing `'#'` makes the scan exit within
`data.length` iterations. -/
theorem claim_C9 (data : List Nat) (fuel : Nat) :
    (decode_ieee_block data ≠ DecodeResult.diverge ↔ (data = [] ∨ 35 ∈ data)) ∧
    (data ≠ [] → 35 ∉ data → scanLoop data 0 fuel = none) ∧
    (35 ∈ data → scanLoop data 0 data.length ≠ none) := by
  refine ⟨?_, ?_, ?_⟩
  · rw [not_iff_comm, decode_diverge_iff]
    constructor
    · intro h
      push_neg at h
      exact ⟨h.1, h.2⟩
    · intro h
      push_neg
      exact ⟨h.1, h.2⟩
  · intro _ h35
    exact scanLoop_of_not_mem data h35 fuel 0
  · intro h35
    exact scanLoop_finds data data.length 0 (by simpa using h35) (by omega)

/-- Witness for C9: on `[7, 8, 9]` (no `'#'`) the scan makes no progress in
5 iterations, and on `[7, 35, 9]` it exits within 3 iterations. -/
theorem claim_C9_witness :
    (([7, 8, 9] : List Nat) ≠ [] ∧ (35 : Nat) ∉ ([7, 8, 9] : List Nat) ∧
      scanLoop [7, 8, 9] 0 5 = none) ∧
    ((35 : Nat) ∈ ([7, 35, 9] : List Nat) ∧ scanLoop [7, 35, 9] 0 3 ≠ none) :=
  ⟨⟨by decide, by decide, (claim_C9 [7, 8, 9] 5).2.1 (by decide) (by decide)⟩,
   ⟨by decide, (claim_C9 [7, 35, 9] 3).2.2 (by decide)⟩⟩

end PyIvi

namespace PyIvi

/-! ## Instrument session and I/O engine

Embeds the `Driver` I/O and state methods of ivi.py (lines 1402-1592), the
`simulate` setter (lines 591-596) and the resource-object classification
of `initialize` (lines 1336-1347).  Transport calls are recorded as an
explicit trace so that statements about "the transport is (not) invoked"
are expressible; transport responses are modelled as pure oracles.
-/

/-- Exceptions of the session layer: the ivi.py exception classes that the
embedded methods raise, plus the built-in Python exceptions they can let
escape. -/
inductive IviError where
  | notInitialized
  | simulationState
  | ioInvalidResource
  | valueError
  | typeError
  | indexError
  | attributeError
deriving DecidableEq, Repr

/-- Argument of `Driver._write`: one command string, or a list of command
strings (`type(data) is tuple or type(data) is list`). -/
inductive WriteInput where
  | str (v : String)
  | list (l : List String)
deriving DecidableEq, Repr

/-- Argument of `Driver._ask`. -/
inductive AskInput where
  | str (v : String)
  | list (l : List String)
deriving DecidableEq, Repr

/-- Return value of `Driver._ask`: a reply string, or the list built up by
the per-command recursion on a list argument (whose elements are whatever
the recursive calls return). -/
inductive AskOutput where
  | str (v : String)
  | list (l : List AskOutput)

/-- One invocation of a method of the bound transport object. -/
inductive Call where
  | write_raw (data : List Nat)
  | read_raw (num : Int)
  | ask_raw (data : List Nat) (num : Int)
  | write (data : WriteInput)
  | read (num : Int)
  | ask (data : AskInput) (num : Int)
  | read_stb
  | trigger
  | clear
  | remote
  | localCmd

/-- The bound transport object, as response oracles plus presence flags.
`read_raw` and `write_raw` are always present because `initialize` binds
only native backend instances or objects defining both (C10).  A `none`
field or `false` flag models a transport whose class lacks that method
(attribute access raises `AttributeError`, caught by the driver's
`except AttributeError` fallbacks, or escaping for `remote`/`local` which
have none) or whose method raises `NotImplementedError` where the driver
catches that too.  Responses are pure functions of the arguments. -/
structure Interface where
  readRawFn : Int → List Nat
  askRawFn : Option (List Nat → Int → List Nat)
  hasWrite : Bool
  readFn : Option (Int → String)
  askFn : Option (AskInput → Int → AskOutput)
  readStbFn : Option Int
  hasTrigger : Bool
  hasClear : Bool
  hasRemote : Bool
  hasLocal : Bool

/-- The per-session driver state used by the I/O layer: `_initialized`,
`_driver_operation_simulate`, `_driver_operation_cache`, `_cache_valid`
and `_interface` (`Driver.__init__`, ivi.py lines 1047-1069, and
`DriverOperation.__init__`, lines 372-386; a fresh session has
`initialized = false`, `simulate = false`, `cacheEnabled = true`, an empty
cache and no interface). -/
structure Session where
  initialized : Bool
  simulate : Bool
  cacheEnabled : Bool
  cacheValid : List (String × Bool)
  interface : Option Interface

/-- `str(data).encode(encoding)` for the ASCII SCPI strings this layer
sends (for ASCII text the UTF-8 bytes coincide with the code points). -/
def encodeStr (s : String) : List Nat := s.data.map Char.toNat

/-- `bytes.decode(encoding)` for the ASCII replies this layer reads. -/
def decodeStr (l : List Nat) : String := ⟨l.map Char.ofNat⟩

/-- Python `str.rstrip('\r\n')`: remove every trailing CR or LF. -/
def rstripCRLF (s : String) : String :=
  ⟨(s.data.reverse.dropWhile (fun c => c == '\r' || c == '\n')).reverse⟩

/-- The guard `if not self._initialized or self._interface is None: raise
NotInitializedException()` shared by every I/O method of `Driver`. -/
def checkInit (s : Session) : Except IviError Interface :=
  if !s.initialized then .error .notInitialized
  else
    match s.interface with
    | none => .error .notInitialized
    | some i => .ok i

namespace Driver

/-- `Driver._write_raw` (ivi.py lines 1438-1445): under simulation prints
a message and returns without I/O; otherwise requires an initialized
session and forwards the bytes to the transport. -/
def write_raw (s : Session) (data : List Nat) : Except IviError (Unit × List Call) :=
  if s.simulate then .ok ((), [])
  else
    match checkInit s with
    | .error e => .error e
    | .ok _ => .ok ((), [Call.write_raw data])

/-- `Driver._read_raw` (lines 1447-1454): under simulation returns `b''`
without I/O. -/
def read_raw (s : Session) (num : Int) : Except IviError (List Nat × List Call) :=
  if s.simulate then .ok ([], [])
  else
    match checkInit s with
    | .error e => .error e
    | .ok i => .ok (i.readRawFn num, [Call.read_raw num])

/-- `Driver._ask_raw` (lines 1456-1468): native `ask_raw` when the
transport offers one, else emulated as `self._write_raw` followed by
`self._read_raw`. -/
def ask_raw (s : Session) (data : List Nat) (num : Int) :
    Except IviError (List Nat × List Call) :=
  if s.simulate then .ok ([], [])
  else
    match checkInit s with
    | .error e => .error e
    | .ok i =>
      match i.askRawFn with
      | some f => .ok (f data num, [Call.ask_raw data num])
      | none => do
          let (_, t1) ← write_raw s data
          let (r, t2) ← read_raw s num
          .ok (r, t1 ++ t2)

/-- The scalar-string path of `Driver._write` (lines 1470-1486): native
`interface.write` when present, else `self._write_raw` on the encoded
string. -/
def writeStr (s : Session) (v : String) : Except IviError (Unit × List Call) :=
  if s.simulate then .ok ((), [])
  else
    match checkInit s with
    | .error e => .error e
    | .ok i =>
      if i.hasWrite then .ok ((), [Call.write (WriteInput.str v)])
      else write_raw s (encodeStr v)

/-- The `for data_i in data: self._write(data_i, encoding)` loop of
`Driver._write`: each element is sent by a recursive `_write` call, which
for a string argument is `writeStr`. -/
def writeList (s : Session) : List String → Except IviError (Unit × List Call)
  | [] => .ok ((), [])
  | v :: rest => do
      let (_, t1) ← writeStr s v
      let (_, t2) ← writeList s rest
      .ok ((), t1 ++ t2)

/-- `Driver._write` (lines 1470-1486): under simulation prints and
returns; native `interface.write` gets the argument unchanged; on
`AttributeError` a list of commands is written one by one in order and a
single string is encoded and sent through `_write_raw`. -/
def write (s : Session) (data : WriteInput) : Except IviError (Unit × List Call) :=
  if s.simulate then .ok ((), [])
  else
    match checkInit s with
    | .error e => .error e
    | .ok i =>
      if i.hasWrite then .ok ((), [Call.write data])
      else
        match data with
        | .str v => write_raw s (encodeStr v)
        | .list l => writeList s l

/-- `Driver._read` (lines 1488-1498): under simulation returns `''`;
native `interface.read` when present, else `_read_raw` decoded with
trailing CR/LF stripped. -/
def read (s : Session) (num : Int) : Except IviError (String × List Call) :=
  if s.simulate then .ok ("", [])
  else
    match checkInit s with
    | .error e => .error e
    | .ok i =>
      match i.readFn with
      | some f => .ok (f num, [Call.read num])
      | none => do
          let (raw, t) ← read_raw s num
          .ok (rstripCRLF (decodeStr raw), t)

/-- The scalar-string path of `Driver._ask` (lines 1500-1519): under
simulation returns `''`; native `interface.ask` when present; otherwise
`self._write` then `self._read`. -/
def askStr (s : Session) (v : String) (num : Int) :
    Except IviError (AskOutput × List Call) :=
  if s.simulate then .ok (.str "", [])
  else
    match checkInit s with
    | .error e => .error e
    | .ok i =>
      match i.askFn with
      | some f => .ok (f (AskInput.str v) num, [Call.ask (AskInput.str v) num])
      | none => do
          let (_, t1) ← write s (WriteInput.str v)
          let (r, t2) ← read s num
          .ok (AskOutput.str r, t1 ++ t2)

/-- The `for data_i in data: val.append(self._ask(data_i, num, encoding))`
loop of `Driver._ask`: each command is asked by a recursive `_ask` call,
which for a string argument is `askStr`; results are collected in order. -/
def askList (s : Session) (num : Int) : List String →
    Except IviError (List AskOutput × List Call)
  | [] => .ok ([], [])
  | c :: rest => do
      let (r, t1) ← askStr s c num
      let (rs, t2) ← askList s num rest
      .ok (r :: rs, t1 ++ t2)

/-- `Driver._ask` (lines 1500-1519): under simulation returns `''` (also
for a list argument); native `interface.ask` gets the argument unchanged;
on `AttributeError` a list of commands is asked element by element in
order, a single string is written then read. -/
def ask (s : Session) (data : AskInput) (num : Int) :
    Except IviError (AskOutput × List Call) :=
  if s.simulate then .ok (.str "", [])
  else
    match checkInit s with
    | .error e => .error e
    | .ok i =>
      match i.askFn with
      | some f => .ok (f data num, [Call.ask data num])
      | none =>
        match data with
        | .str v => do
            let (_, t1) ← write s (WriteInput.str v)
            let (r, t2) ← read s num
            .ok (AskOutput.str r, t1 ++ t2)
        | .list l => do
            let (rs, t) ← askList s num l
            .ok (AskOutput.list rs, t)

/-- `Driver._read_stb` (lines 1544-1554): under simulation returns 0;
native `interface.read_stb` when present (and not raising
`NotImplementedError`), else `int(self._ask("*STB?"))`.  `String.toInt?`
stands for Python `int` on the reply (both parse an optional sign and
decimal digits; the exotic extra forms Python accepts do not matter
here). -/
def read_stb (s : Session) : Except IviError (Int × List Call) :=
  if s.simulate then .ok (0, [])
  else
    match checkInit s with
    | .error e => .error e
    | .ok i =>
      match i.readStbFn with
      | some v => .ok (v, [Call.read_stb])
      | none => do
          let (r, t) ← ask s (AskInput.str "*STB?") (-1)
          match r with
          | .str x =>
            match x.toInt? with
            | some v => .ok (v, t)
            | none => .error .valueError
          | .list _ => .error .typeError

/-- `Driver._trigger` (lines 1556-1565): the simulation branch only prints
and, unlike `_write_raw`/`_read_raw`/`_ask`/..., does NOT return early, so
execution falls through to the initialization check and, when a transport
is bound, to real I/O: native `interface.trigger` when present, else
`self._write("*TRG")` (which itself returns early under simulation). -/
def trigger (s : Session) : Except IviError (Unit × List Call) :=
  match checkInit s with
  | .error e => .error e
  | .ok i =>
    if i.hasTrigger then .ok ((), [Call.trigger])
    else write s (WriteInput.str "*TRG")

/-- `Driver._clear` (lines 1567-1576): same missing early return in the
simulation branch as `_trigger`; native `interface.clear` when present,
else `self._write("*CLS")`. -/
def clear (s : Session) : Except IviError (Unit × List Call) :=
  match checkInit s with
  | .error e => .error e
  | .ok i =>
    if i.hasClear then .ok ((), [Call.clear])
    else write s (WriteInput.str "*CLS")

/-- `Driver._remote` (lines 1578-1584): same missing early return in the
simulation branch; `return self._interface.remote()` with no fallback, so
a transport without `remote` lets `AttributeError` escape. -/
def remote (s : Session) : Except IviError (Unit × List Call) :=
  match checkInit s with
  | .error e => .error e
  | .ok i =>
    if i.hasRemote then .ok ((), [Call.remote])
    else .error .attributeError

/-- `Driver._local` (lines 1586-1592): same shape as `_remote`. -/
def localCmd (s : Session) : Except IviError (Unit × List Call) :=
  match checkInit s with
  | .error e => .error e
  | .ok i =>
    if i.hasLocal then .ok ((), [Call.localCmd])
    else .error .attributeError

end Driver

end PyIvi

namespace PyIvi

/-- The `simulate` property setter (ivi.py lines 591-596): turning
simulation off after it has been turned on raises
`SimulationStateException` before any assignment; every other transition
assigns the new value. -/
def setSimulate (s : Session) (value : Bool) : Except IviError Session :=
  if s.simulate && !value then .error .simulationState
  else .ok { s with simulate := value }

/-- `Driver._get_cache_tag` for an explicitly supplied tag (ivi.py lines
1402-1415; the `tag is None` branch reads the caller's name off the call
stack and is outside a shallow embedding): strip a leading `"_get"`, then
a leading `"_set"`, then a leading `"_"`.  The third test is `tag[0]`,
which raises `IndexError` when the tag has become empty. -/
def getCacheTag (tag : String) : Except IviError String :=
  let t1 := if tag.take 4 == "_get" then tag.drop 4 else tag
  let t2 := if t1.take 4 == "_set" then t1.drop 4 else t1
  if t2.isEmpty then .error .indexError
  else if t2.take 1 == "_" then .ok (t2.drop 1) else .ok t2

/-- Lookup in the `_cache_valid` dict, modelled as an association list. -/
def lookupTag : List (String × Bool) → String → Option Bool
  | [], _ => none
  | (k, v) :: rest, t => if k == t then some v else lookupTag rest t

/-- Assignment `self._cache_valid[tag] = value` on the association list. -/
def insertTag : List (String × Bool) → String → Bool → List (String × Bool)
  | [], t, v => [(t, v)]
  | (k, w) :: rest, t, v =>
    if k == t then (t, v) :: rest else (k, w) :: insertTag rest t v

/-- `tag = tag + '_%d' % index` when `index >= 0` (ivi.py lines 1421-1422
and 1431-1432). -/
def tagWithIndex (t : String) (index : Int) : String :=
  if 0 ≤ index then t ++ "_" ++ toString index.toNat else t

/-- `Driver._get_cache_valid` (lines 1417-1427): returns false outright
when caching is globally disabled (and `skip_disable` is not set), before
any tag processing; otherwise derives the tag, appends the index suffix,
and looks it up, defaulting to false and creating the entry on
`KeyError`. -/
def getCacheValid (s : Session) (tag : String) (index : Int) (skipDisable : Bool) :
    Except IviError (Bool × Session) :=
  if !skipDisable && !s.cacheEnabled then .ok (false, s)
  else
    match getCacheTag tag with
    | .error e => .error e
    | .ok t0 =>
      let t := tagWithIndex t0 index
      match lookupTag s.cacheValid t with
      | some b => .ok (b, s)
      | none => .ok (false, { s with cacheValid := insertTag s.cacheValid t false })

/-- `Driver._set_cache_valid` (lines 1429-1433). -/
def setCacheValid (s : Session) (valid : Bool) (tag : String) (index : Int) :
    Except IviError Session :=
  match getCacheTag tag with
  | .error e => .error e
  | .ok t0 =>
    let t := tagWithIndex t0 index
    .ok { s with cacheValid := insertTag s.cacheValid t valid }

/-- `Driver._driver_operation_invalidate_all_attributes` (lines
1435-1436): `self._cache_valid = dict()`. -/
def invalidateAllAttributes (s : Session) : Session :=
  { s with cacheValid := [] }

/-- An already-constructed resource object handed to `initialize`, for the
classification at ivi.py lines 1336-1347.  `isVxi11Instrument` and
`isUsbtmcInstrument` say the object's class IS the class of an available
native backend (`'vxi11' in globals() and resource.__class__ ==
vxi11.Instrument`, same for usbtmc); `ownClassDict` lists the attribute
names defined directly in the object's own class
(`resource.__class__.__dict__`, which never contains inherited names);
`inheritedDict` lists the names only inherited from base classes, which
the code never consults. -/
structure ResourceObject where
  isVxi11Instrument : Bool
  isUsbtmcInstrument : Bool
  ownClassDict : List String
  inheritedDict : List String
deriving DecidableEq, Repr

/-- The resource-object classification of `Driver.initialize` (lines
1336-1347): accept a native backend instance as-is; otherwise accept
exactly when `{'read_raw', 'write_raw'}.issubset(set(
resource.__class__.__dict__))`; otherwise `IOException('Invalid
resource')`. -/
def classifyResource (r : ResourceObject) : Except IviError Unit :=
  if r.isVxi11Instrument then .ok ()
  else if r.isUsbtmcInstrument then .ok ()
  else if r.ownClassDict.contains "read_raw" && r.ownClassDict.contains "write_raw" then
    .ok ()
  else .error .ioInvalidResource

end PyIvi

namespace PyIvi

/-- A freshly constructed `Driver()`: not initialized, not simulating,
cache enabled, empty cache, no interface bound. -/
def freshSession : Session :=
  { initialized := false
    simulate := false
    cacheEnabled := true
    cacheValid := []
    interface := none }

/-- A fresh session whose `simulate` flag has been turned on
(`d = Driver(); d.simulate = True`), still never initialized. -/
def simUninitSession : Session :=
  { initialized := false
    simulate := true
    cacheEnabled := true
    cacheValid := []
    interface := none }

/-- C4 (amended): on a session that has not been successfully initialized
and is not simulating, every I/O operation raises
`NotInitializedException`.  (When `simulate` is true, the write/read/ask
family instead returns its stub values without raising — see the
counterexample — while `trigger`/`clear`/`remote`/`local`, whose simulate
branch does not return, still raise.) -/
theorem claim_C4 (s : Session) (hsim : s.simulate = false)
    (hinit : s.initialized = false) (bdata : List Nat) (wdata : WriteInput)
    (adata : AskInput) (num : Int) :
    Driver.write s wdata = .error .notInitialized ∧
    Driver.read s num = .error .notInitialized ∧
    Driver.ask s adata num = .error .notInitialized ∧
    Driver.write_raw s bdata = .error .notInitialized ∧
    Driver.read_raw s num = .error .notInitialized ∧
    Driver.ask_raw s bdata num = .error .notInitialized ∧
    Driver.read_stb s = .error .notInitialized ∧
    Driver.trigger s = .error .notInitialized ∧
    Driver.clear s = .error .notInitialized ∧
    Driver.remote s = .error .notInitialized ∧
    Driver.localCmd s = .error .notInitialized := by
  have hchk : checkInit s = .error .notInitialized := by
    unfold checkInit
    rw [hinit]
    rfl
  refine ⟨?_, ?_, ?_, ?_, ?_, ?_, ?_, ?_, ?_, ?_, ?_⟩ <;>
    simp [Driver.write, Driver.read, Driver.ask, Driver.write_raw, Driver.read_raw,
      Driver.ask_raw, Driver.read_stb, Driver.trigger, Driver.clear, Driver.remote,
      Driver.localCmd, hsim, hchk]

/-- Witness for C4 on a freshly constructed session. -/
theorem claim_C4_witness :
    freshSession.simulate = false ∧ freshSession.initialized = false ∧
    (Driver.write freshSession (WriteInput.str "W") = .error .notInitialized ∧
     Driver.read freshSession (-1) = .error .notInitialized ∧
     Driver.ask freshSession (AskInput.str "A") (-1) = .error .notInitialized ∧
     Driver.write_raw freshSession [42] = .error .notInitialized ∧
     Driver.read_raw freshSession (-1) = .error .notInitialized ∧
     Driver.ask_raw freshSession [42] (-1) = .error .notInitialized ∧
     Driver.read_stb freshSession = .error .notInitialized ∧
     Driver.trigger freshSession = .error .notInitialized ∧
     Driver.clear freshSession = .error .notInitialized ∧
     Driver.remote freshSession = .error .notInitialized ∧
     Driver.localCmd freshSession = .error .notInitialized) :=
  ⟨rfl, rfl, claim_C4 freshSession rfl rfl [42] (WriteInput.str "W")
    (AskInput.str "A") (-1)⟩

/-- Counterexample for C4 as frozen: a session that was never initialized
but has `simulate` turned on (reachable by `d = Driver(); d.simulate =
True`) does NOT raise on the write/read/ask family; those methods return
their simulation stubs. -/
theorem claim_C4_counterexample :
    setSimulate freshSession true = .ok simUninitSession ∧
    simUninitSession.initialized = false ∧
    Driver.write_raw simUninitSession [42] = .ok ((), []) ∧
    Driver.read simUninitSession (-1) = .ok ("", []) ∧
    Driver.ask simUninitSession (AskInput.str "A") (-1) = .ok (AskOutput.str "", []) :=
  ⟨rfl, rfl, rfl, rfl, rfl⟩

/-- A transport offering native `trigger`/`clear`/`remote`/`local`. -/
def fullInterface : Interface :=
  { readRawFn := fun _ => []
    askRawFn := none
    hasWrite := false
    readFn := none
    askFn := none
    readStbFn := none
    hasTrigger := true
    hasClear := true
    hasRemote := true
    hasLocal := true }

/-- A session initialized against `fullInterface` whose `simulate` flag
was then turned on (initialize with a real transport, then
`d.simulate = True`). -/
def simBoundSession : Session :=
  { initialized := true
    simulate := true
    cacheEnabled := true
    cacheValid := []
    interface := some fullInterface }

/-- C5: evaluation at the failing input.  On a simulating session with a
bound transport, `trigger`/`clear`/`remote`/`local` DO invoke the
transport (non-empty call trace) because their simulate branch lacks the
early return the other methods have — contradicting both the claim and
the driver's own `simulate` docstring ("the specific driver functions do
not perform instrument I/O").  The write/read/ask family behaves as
claimed: empty trace, `''`/`b''` stubs. -/
theorem claim_C5 :
    Driver.trigger simBoundSession = .ok ((), [Call.trigger]) ∧
    Driver.clear simBoundSession = .ok ((), [Call.clear]) ∧
    Driver.remote simBoundSession = .ok ((), [Call.remote]) ∧
    Driver.localCmd simBoundSession = .ok ((), [Call.localCmd]) ∧
    Driver.read simBoundSession (-1) = .ok ("", []) ∧
    Driver.ask simBoundSession (AskInput.str "X") (-1) = .ok (AskOutput.str "", []) ∧
    Driver.read_raw simBoundSession (-1) = .ok ([], []) ∧
    Driver.ask_raw simBoundSession [1] (-1) = .ok ([], []) ∧
    Driver.write_raw simBoundSession [1] = .ok ((), []) ∧
    Driver.write simBoundSession (WriteInput.str "X") = .ok ((), []) ∧
    Driver.read_stb simBoundSession = .ok (0, []) :=
  ⟨rfl, rfl, rfl, rfl, rfl, rfl, rfl, rfl, rfl, rfl, rfl⟩

/-- C6: turning `simulate` on always succeeds from off; turning it off on
an already-simulating session raises `SimulationStateException`, before
the assignment, so the flag stays true. -/
theorem claim_C6 (s : Session) :
    (s.simulate = false → setSimulate s true = .ok { s with simulate := true }) ∧
    (s.simulate = true → setSimulate s false = .error .simulationState) := by
  constructor
  · intro h
    unfold setSimulate
    rw [h]
    rfl
  · intro h
    unfold setSimulate
    rw [h]
    rfl

/-- Witness for C6: both transitions at concrete sessions. -/
theorem claim_C6_witness :
    (freshSession.simulate = false ∧
      setSimulate freshSession true = .ok { freshSession with simulate := true }) ∧
    (simUninitSession.simulate = true ∧
      setSimulate simUninitSession false = .error .simulationState) :=
  ⟨⟨rfl, (claim_C6 freshSession).1 rfl⟩,
   ⟨rfl, (claim_C6 simUninitSession).2 rfl⟩⟩

end PyIvi

namespace PyIvi

/-- Dict assignment followed by lookup of the same key yields the assigned
value. -/
theorem lookupTag_insertTag_self (m : List (String × Bool)) (k : String) (v : Bool) :
    lookupTag (insertTag m k v) k = some v := by
  induction m with
  | nil => simp [insertTag, lookupTag]
  | cons p rest ih =>
    obtain ⟨k2, v2⟩ := p
    by_cases hk : (k2 == k) = true
    · simp [insertTag, hk, lookupTag]
    · simp [insertTag, hk, lookupTag, ih]

/-- With caching globally disabled, `_get_cache_valid` returns false
before doing anything else: no tag processing, no entry creation. -/
theorem getCacheValid_disabled (s : Session) (tag : String) (index : Int)
    (hd : s.cacheEnabled = false) :
    getCacheValid s tag index false = .ok (false, s) := by
  unfold getCacheValid
  rw [hd]
  rfl

/-- Evaluation of `_get_cache_valid` on a cache-enabled session once the
tag has been derived. -/
theorem getCacheValid_enabled_eq (s : Session) (tag t0 : String) (index : Int)
    (hEn : s.cacheEnabled = true) (h : getCacheTag tag = .ok t0) :
    getCacheValid s tag index false =
      match lookupTag s.cacheValid (tagWithIndex t0 index) with
      | some b => .ok (b, s)
      | none => .ok (false,
          { s with cacheValid := insertTag s.cacheValid (tagWithIndex t0 index) false }) := by
  unfold getCacheValid
  rw [hEn, h]
  rfl

/-- Evaluation of `_set_cache_valid` once the tag has been derived. -/
theorem setCacheValid_eq (s : Session) (tag t0 : String) (valid : Bool) (index : Int)
    (h : getCacheTag tag = .ok t0) :
    setCacheValid s valid tag index =
      .ok { s with cacheValid := insertTag s.cacheValid (tagWithIndex t0 index) valid } := by
  unfold setCacheValid
  rw [h]

/-- C7 (amended: for every tag whose `_get`/`_set`/`_` prefix stripping
leaves a nonempty derived tag `t0`; a tag stripping to empty raises
`IndexError` instead — see the counterexample): after
`_set_cache_valid(True, tag)` on a cache-enabled session,
`_get_cache_valid(tag)` returns true; after invalidating all attributes,
`_get_cache_valid(tag)` returns false for every tag (creating a fresh
false entry when caching is enabled); with caching globally disabled it
returns false for any tag whatsoever, leaving the session untouched; and
a tag absent from the mapping reads as false while creating the false
entry. -/
theorem claim_C7 (s s₂ s₃ s₄ s₁ : Session) (tag tag₂ t0 : String)
    (h : getCacheTag tag = .ok t0)
    (hEn : s.cacheEnabled = true)
    (hset : setCacheValid s true tag (-1) = .ok s₁)
    (hdis : s₃.cacheEnabled = false)
    (hEn4 : s₄.cacheEnabled = true)
    (habs : lookupTag s₄.cacheValid t0 = none) :
    getCacheValid s₁ tag (-1) false = .ok (true, s₁) ∧
    getCacheValid (invalidateAllAttributes s₂) tag (-1) false =
      .ok (false, { s₂ with cacheValid :=
        if s₂.cacheEnabled then [(t0, false)] else [] }) ∧
    getCacheValid s₃ tag₂ (-1) false = .ok (false, s₃) ∧
    getCacheValid s₄ tag (-1) false =
      .ok (false, { s₄ with cacheValid := insertTag s₄.cacheValid t0 false }) := by
  have hidx : tagWithIndex t0 (-1) = t0 := rfl
  refine ⟨?_, ?_, ?_, ?_⟩
  · rw [setCacheValid_eq s tag t0 true (-1) h] at hset
    have hs₁ := Except.ok.inj hset
    subst hs₁
    rw [getCacheValid_enabled_eq
      { s with cacheValid := insertTag s.cacheValid (tagWithIndex t0 (-1)) true }
      tag t0 (-1) hEn h, hidx, lookupTag_insertTag_self]
  · by_cases hc : s₂.cacheEnabled = true
    · have key : getCacheValid (invalidateAllAttributes s₂) tag (-1) false
          = .ok (false, { s₂ with cacheValid := [(t0, false)] }) := by
        rw [getCacheValid_enabled_eq (invalidateAllAttributes s₂) tag t0 (-1) hc h, hidx]
        rfl
      rw [key, if_pos hc]
    · have hc2 : s₂.cacheEnabled = false := by simpa using hc
      rw [if_neg hc]
      exact getCacheValid_disabled (invalidateAllAttributes s₂) tag (-1) hc2
  · exact getCacheValid_disabled s₃ tag₂ (-1) hdis
  · rw [getCacheValid_enabled_eq s₄ tag t0 (-1) hEn4 h, hidx, habs]

/-- A fresh session with the cache option globally disabled
(`cache=False`). -/
def cacheOffSession : Session :=
  { freshSession with cacheEnabled := false }

/-- Witness for C7 at the tag `"x"` on concrete sessions. -/
theorem claim_C7_witness :
    (getCacheTag "x" = .ok "x" ∧
     setCacheValid freshSession true "x" (-1)
       = .ok { freshSession with cacheValid := [("x", true)] } ∧
     cacheOffSession.cacheEnabled = false ∧
     lookupTag freshSession.cacheValid "x" = none) ∧
    (getCacheValid { freshSession with cacheValid := [("x", true)] } "x" (-1) false
       = .ok (true, { freshSession with cacheValid := [("x", true)] }) ∧
     getCacheValid (invalidateAllAttributes freshSession) "x" (-1) false
       = .ok (false, { freshSession with cacheValid :=
           if freshSession.cacheEnabled then [("x", false)] else [] }) ∧
     getCacheValid cacheOffSession "y" (-1) false = .ok (false, cacheOffSession) ∧
     getCacheValid freshSession "x" (-1) false
       = .ok (false, { freshSession with
           cacheValid := insertTag freshSession.cacheValid "x" false })) :=
  ⟨⟨rfl, rfl, rfl, rfl⟩,
   claim_C7 freshSession freshSession cacheOffSession freshSession
     { freshSession with cacheValid := [("x", true)] } "x" "y" "x"
     rfl rfl rfl rfl rfl rfl⟩

/-- Counterexample for C7 as frozen ("for every tag t"): the empty tag
strips to empty and `tag[0]` raises `IndexError` inside `_get_cache_tag`,
so marking it valid (or querying it on a cache-enabled session) raises
instead of recording or reporting validity. -/
theorem claim_C7_counterexample :
    setCacheValid freshSession true "" (-1) = .error .indexError ∧
    getCacheValid freshSession "" (-1) false = .error .indexError :=
  ⟨rfl, rfl⟩

end PyIvi

namespace PyIvi

/-- `Driver._ask` on a single command string is exactly the scalar ask
path, i.e. the recursive call made by the list loop. -/
theorem ask_str_eq_askStr (s : Session) (v : String) (num : Int) :
    Driver.ask s (AskInput.str v) num = Driver.askStr s v num := rfl

/-- The per-command loop of `_ask`: when each scalar ask returns a given
result and transport trace, the loop collects the results positionally in
order and performs the traces concatenated in order. -/
theorem askList_eq_of_forall₂ (s : Session) (num : Int)
    (cs : List String) (os : List (AskOutput × List Call))
    (hf : List.Forall₂ (fun c oc => Driver.askStr s c num = .ok oc) cs os) :
    Driver.askList s num cs = .ok (os.map Prod.fst, (os.map Prod.snd).flatten) := by
  induction hf with
  | nil => rfl
  | cons hc hrest ih =>
    rename_i c oc cs2 os2
    obtain ⟨r, t⟩ := oc
    unfold Driver.askList
    rw [hc, ih]
    rfl

/-- C8: on a session whose transport lacks a native `ask`, asking a list
of commands returns the list of the individually-asked results,
positionally and in order, with the transport traffic being exactly the
concatenation, in order, of the individual exchanges. -/
theorem claim_C8 (s : Session) (i : Interface) (num : Int)
    (hi : s.interface = some i) (hask : i.askFn = none)
    (hsim : s.simulate = false) (hinit : s.initialized = true)
    (cmds : List String) (outs : List (AskOutput × List Call))
    (h : List.Forall₂ (fun c oc => Driver.ask s (AskInput.str c) num = .ok oc) cmds outs) :
    Driver.ask s (AskInput.list cmds) num =
      .ok (AskOutput.list (outs.map Prod.fst), (outs.map Prod.snd).flatten) := by
  have hchk : checkInit s = .ok i := by
    unfold checkInit
    rw [hinit, hi]
    rfl
  have h2 : List.Forall₂ (fun c oc => Driver.askStr s c num = .ok oc) cmds outs := by
    refine h.imp ?_
    intro c oc hco
    rw [← ask_str_eq_askStr]
    exact hco
  unfold Driver.ask
  rw [hsim, hchk]
  simp only [Bool.false_eq_true, if_false, hask]
  rw [askList_eq_of_forall₂ s num cmds outs h2]
  rfl

end PyIvi

namespace PyIvi

/-- A transport offering only the required `read_raw`/`write_raw` pair,
always replying `b"OK"`. -/
def echoInterface : Interface :=
  { readRawFn := fun _ => [79, 75]
    askRawFn := none
    hasWrite := false
    readFn := none
    askFn := none
    readStbFn := none
    hasTrigger := false
    hasClear := false
    hasRemote := false
    hasLocal := false }

/-- An initialized, non-simulating session bound to `echoInterface`. -/
def echoSession : Session :=
  { initialized := true
    simulate := false
    cacheEnabled := true
    cacheValid := []
    interface := some echoInterface }

/-- Witness for C8: asking `["A", "B"]` against the ask-less transport
returns the two individually-asked results in order, with the two
write/read exchanges back to back. -/
theorem claim_C8_witness :
    (echoSession.interface = some echoInterface ∧ echoInterface.askFn = none ∧
     echoSession.simulate = false ∧ echoSession.initialized = true ∧
     List.Forall₂ (fun c oc => Driver.ask echoSession (AskInput.str c) (-1) = .ok oc)
       ["A", "B"]
       [(AskOutput.str "OK", [Call.write_raw [65], Call.read_raw (-1)]),
        (AskOutput.str "OK", [Call.write_raw [66], Call.read_raw (-1)])]) ∧
    Driver.ask echoSession (AskInput.list ["A", "B"]) (-1) =
      .ok (AskOutput.list [AskOutput.str "OK", AskOutput.str "OK"],
        [Call.write_raw [65], Call.read_raw (-1), Call.write_raw [66], Call.read_raw (-1)]) :=
  ⟨⟨rfl, rfl, rfl, rfl,
    List.Forall₂.cons rfl (List.Forall₂.cons rfl List.Forall₂.nil)⟩,
   claim_C8 echoSession echoInterface (-1) rfl rfl rfl rfl ["A", "B"]
     [(AskOutput.str "OK", [Call.write_raw [65], Call.read_raw (-1)]),
      (AskOutput.str "OK", [Call.write_raw [66], Call.read_raw (-1)])]
     (List.Forall₂.cons rfl (List.Forall₂.cons rfl List.Forall₂.nil))⟩

end PyIvi

namespace PyIvi

/-- C10: an already-constructed resource object that is not a recognized
native backend instance is accepted as the session transport exactly when
both `read_raw` and `write_raw` appear in its own class dictionary
(`resource.__class__.__dict__`, which never includes inherited names);
otherwise — in particular, when the methods are only inherited from a base
class — it is rejected with `IOException('Invalid resource')`. -/
theorem claim_C10 (r : ResourceObject) (hn : r.isVxi11Instrument = false)
    (hu : r.isUsbtmcInstrument = false) :
    ((r.ownClassDict.contains "read_raw" && r.ownClassDict.contains "write_raw") = true →
      classifyResource r = .ok ()) ∧
    ((r.ownClassDict.contains "read_raw" && r.ownClassDict.contains "write_raw") = false →
      classifyResource r = .error .ioInvalidResource) := by
  constructor
  · intro h
    unfold classifyResource
    rw [hn, hu, h]
    rfl
  · intro h
    unfold classifyResource
    rw [hn, hu, h]
    rfl

/-- A resource object whose class only inherits `read_raw`/`write_raw`
from a base class: its own class dictionary does not contain them. -/
def inheritingResource : ResourceObject :=
  { isVxi11Instrument := false
    isUsbtmcInstrument := false
    ownClassDict := ["close"]
    inheritedDict := ["read_raw", "write_raw"] }

/-- A resource object defining both methods directly in its own class. -/
def directResource : ResourceObject :=
  { isVxi11Instrument := false
    isUsbtmcInstrument := false
    ownClassDict := ["read_raw", "write_raw"]
    inheritedDict := [] }

/-- Witness for C10: the object defining both methods itself is accepted;
the object merely inheriting them is rejected even though the inherited
names are present on the instance. -/
theorem claim_C10_witness :
    ((directResource.ownClassDict.contains "read_raw" &&
        directResource.ownClassDict.contains "write_raw") = true ∧
     classifyResource directResource = .ok ()) ∧
    ((inheritingResource.ownClassDict.contains "read_raw" &&
        inheritingResource.ownClassDict.contains "write_raw") = false ∧
     inheritingResource.inheritedDict.contains "read_raw" = true ∧
     inheritingResource.inheritedDict.contains "write_raw" = true ∧
     classifyResource inheritingResource = .error .ioInvalidResource) :=
  ⟨⟨rfl, (claim_C10 directResource rfl rfl).1 rfl⟩,
   ⟨rfl, rfl, rfl, (claim_C10 inheritingResource rfl rfl).2 rfl⟩⟩

end PyIvi
